import Mathlib

/-!
Shallow embedding of the adaptive research synthesis pipeline of the `swarm`
repository, and proofs settling the frozen claims about it.

Sources embedded here:
- `src/swarm/research/extractor.py`   (`ContentExtractor`)
- `src/swarm/research/analyzer.py`    (`ContentAnalyzer`, `AnalysisResult`)
- `src/swarm/research/assistant.py`   (`ResearchAssistant._search_phase`)
- `src/swarm/research/formatter.py`   (`ResearchFormatter.generate_markdown_report`)
- `src/swarm/research/language.py`    (`LanguageHelper`, translation/prompt tables)
- `src/swarm/cli/commands/research_assistant.py`
  (`EnhancedResearchAssistant._phase_4_final_summary`)
- `src/swarm/core/config.py`          (configuration defaults)

Modelling conventions:
- Python `float` values are modelled as `ℚ` (the pipeline only adds, multiplies,
  divides and compares scores; all constants are decimal literals).
- Python strings are Lean `String`s; `str.split()`, `str.lower()`, slicing,
  `str.strip()` and `"sep".join` are re-implemented below on `List Char` so that
  they are kernel-reducible (`pySplit`, `pyLower`, `pyTake`, `pyStrip`, `pyJoin`).
- Python `set(...)` values are modelled as deduplicated lists (`List.dedup`);
  only membership and cardinality of such sets are ever used by the code.
- Python dictionaries with fixed key sets are modelled as structures; keys read
  with `.get(k, default)` and possibly absent become `Option` fields, keys read
  with `[...]` and always written by the producer become plain fields.
- The external collaborators (browser, LLM) are oracle functions returning
  `Except String α`; a Python exception raised by a collaborator call is the
  `Except.error` case, caught exactly where the Python `try` blocks catch it.
- `async` functions are modelled as plain functions: the pipeline awaits every
  call immediately and shares no state between suspension points.
-/

namespace Swarm

/-! ## Python string primitives -/

/-- Helper for `pySplit`: walk the characters, accumulating the current word
(in reverse); whitespace finishes a word, consecutive whitespace yields nothing. -/
def wordsAux : List Char → List Char → List String
  | [], acc => if acc = [] then [] else [String.mk acc.reverse]
  | c :: cs, acc =>
    if c.isWhitespace then
      (if acc = [] then wordsAux cs [] else String.mk acc.reverse :: wordsAux cs [])
    else wordsAux cs (c :: acc)

/-- Python `s.split()` (no argument): split on runs of whitespace, no empty parts. -/
def pySplit (s : String) : List String := wordsAux s.data []

/-- Python `s.lower()` (ASCII case folding, which is all the pipeline relies on). -/
def pyLower (s : String) : String := String.mk (s.data.map Char.toLower)

/-- Python slicing `s[:n]` (by code points, as in Python). -/
def pyTake (s : String) (n : Nat) : String := String.mk (s.data.take n)

/-- Python `len(s)` (code points). -/
def pyLen (s : String) : Nat := s.data.length

/-- Python `s.strip()`. -/
def pyStrip (s : String) : String :=
  String.mk (((s.data.dropWhile Char.isWhitespace).reverse.dropWhile Char.isWhitespace).reverse)

/-- Python `sep.join(parts)`. -/
def pyJoin (sep : String) : List String → String
  | [] => ""
  | x :: xs => xs.foldl (fun acc y => acc ++ sep ++ y) x

/-- `content.lower().split()`, the tokenisation both scoring and themes use. -/
def wordsLower (s : String) : List String := pySplit (pyLower s)

/-- Python dict-based counting (`d[k] = d.get(k, 0) + 1` in a loop): an
association list in first-insertion order with the final counts. -/
def countOcc (l : List String) : List (String × Nat) :=
  l.foldl
    (fun acc t =>
      if acc.any (fun p => p.1 == t) then
        acc.map (fun p => if p.1 == t then (p.1, p.2 + 1) else p)
      else acc ++ [(t, 1)])
    []

/-- Stable insertion of one element into a count-descending list: the new
element goes after all existing elements with a count `≥` its own.  This is the
insertion step of a stable descending sort. -/
def insertByCountDesc (x : String × Nat) : List (String × Nat) → List (String × Nat)
  | [] => [x]
  | y :: ys => if y.2 < x.2 then x :: y :: ys else y :: insertByCountDesc x ys

/-- Python `sorted(items, key=lambda x: x[1], reverse=True)`: stable descending
sort by count (Python's sort is stable, so ties keep first-insertion order). -/
def sortByCountDesc (l : List (String × Nat)) : List (String × Nat) :=
  l.foldl (fun acc x => insertByCountDesc x acc) []

/-- Digit grouping for `fmtComma`, on the reversed digit list; the fuel (an
upper bound on the number of groups) keeps the recursion structural. -/
def groupDigits : Nat → List Char → List Char
  | 0, ds => ds
  | fuel + 1, ds =>
    if ds.length ≤ 3 then ds
    else ds.take 3 ++ ',' :: groupDigits fuel (ds.drop 3)

/-- Python `f"{n:,}"` on a nonnegative integer: thousands separators. -/
def fmtComma (n : Nat) : String :=
  let ds := (Nat.repr n).data
  String.mk ((groupDigits ds.length ds.reverse).reverse)

/-- Python `f"{x:.1f}"` for the nonnegative scores this pipeline prints.
(Exact decimal ties, where binary floats round to even, do not arise for the
values formatted by this code; rounding half up is used here.) -/
def fmtFix1 (q : ℚ) : String :=
  let m : Nat := (Rat.floor (q * 10 + 1 / 2)).toNat
  Nat.repr (m / 10) ++ "." ++ Nat.repr (m % 10)

/-- Python `s.title()` on ASCII text: uppercase every letter that does not
follow a letter, lowercase the rest. -/
def pyTitle (s : String) : String :=
  String.mk
    ((s.data.foldl
        (fun st c =>
          let out := st.1
          let prevAlpha := st.2
          if c.isAlpha then
            ((if prevAlpha then c.toLower else c.toUpper) :: out, true)
          else (c :: out, false))
        (([] : List Char), false)).1.reverse)

/-! ## Configuration (`src/swarm/core/config.py`)

Pydantic validation bounds are recorded as comments; in particular
`max_retry_attempts` carries `ge=0`, so `0` is a valid configured value. -/

structure ResearchConfig where
  include_images : Bool := true
  max_sources : Nat := 8              -- gt=0
  content_limit : Nat := 4096         -- gt=0
  relevance_threshold : ℚ := 5        -- ge=0.0
  min_word_count : Nat := 300         -- gt=0
  deep_content_limit : Nat := 8192    -- gt=0
  max_retry_attempts : Nat := 2       -- ge=0
  deriving DecidableEq, Repr

structure LLMConfig where
  model : String := "llama3.2:latest"
  max_tokens : Nat := 8192            -- gt=0
  enable_streaming : Bool := true
  deriving DecidableEq, Repr

structure Config where
  llm : LLMConfig := {}
  research : ResearchConfig := {}
  deriving DecidableEq, Repr

/-! ## Language support (`src/swarm/research/language.py`)

`LanguageHelper.__init__` lowercases the configured language and falls back to
`"english"` when it is not a key of `TRANSLATIONS`; `PyLang` is the normalised
state (the config validates `output_language` to `english|chinese`). -/

inductive PyLang
  | english
  | chinese
  deriving DecidableEq, Repr

/-- `TRANSLATIONS["english"]` as a partial map. -/
def translationsEN : String → Option String
  | "research_report" => some "Research Report"
  | "generated" => some "Generated"
  | "model" => some "Model"
  | "context_size" => some "Context Size"
  | "sources_analyzed" => some "Sources Analyzed"
  | "images_found" => some "Images Found"
  | "executive_summary" => some "Executive Summary"
  | "key_findings" => some "Key Findings"
  | "detailed_key_findings" => some "Detailed Key Findings"
  | "finding" => some "Finding"
  | "source" => some "Source"
  | "relevance_score" => some "Relevance Score"
  | "relevant_images" => some "Relevant Images"
  | "identified_themes" => some "Identified Themes"
  | "supporting_sources" => some "Supporting Sources"
  | "detailed_source_analysis" => some "Detailed Source Analysis"
  | "word_count" => some "Word Count"
  | "summary" => some "Summary"
  | "content_preview" => some "Content Preview"
  | "all_search_results" => some "All Search Results"
  | "depth_legend" =>
    some "Depth Legend: N/N=Normal, D/N=Deep Extract, N/E=Enhanced Analysis, D/E=Deep+Enhanced"
  | "relevance_distribution" => some "Relevance Distribution"
  | "high" => some "High"
  | "medium" => some "Medium"
  | "low" => some "Low"
  | "research_complete" => some "Research Complete!"
  | "sources_found" => some "Sources Found"
  | "themes_identified" => some "Themes Identified"
  | "tokens" => some "tokens"
  | _ => none

/-- `TRANSLATIONS["chinese"]` as a partial map. -/
def translationsZH : String → Option String
  | "research_report" => some "研究报告"
  | "generated" => some "生成时间"
  | "model" => some "模型"
  | "context_size" => some "上下文大小"
  | "sources_analyzed" => some "已分析来源"
  | "images_found" => some "发现图片"
  | "executive_summary" => some "执行摘要"
  | "key_findings" => some "关键发现"
  | "detailed_key_findings" => some "详细关键发现"
  | "finding" => some "发现"
  | "source" => some "来源"
  | "relevance_score" => some "相关性评分"
  | "relevant_images" => some "相关图片"
  | "identified_themes" => some "识别主题"
  | "supporting_sources" => some "支持来源"
  | "detailed_source_analysis" => some "详细来源分析"
  | "word_count" => some "字数统计"
  | "summary" => some "摘要"
  | "content_preview" => some "内容预览"
  | "all_search_results" => some "所有搜索结果"
  | "depth_legend" => some "深度图例: N/N=正常, D/N=深度提取, N/E=增强分析, D/E=深度+增强"
  | "relevance_distribution" => some "相关性分布"
  | "high" => some "高"
  | "medium" => some "中"
  | "low" => some "低"
  | "research_complete" => some "研究完成！"
  | "sources_found" => some "发现来源"
  | "themes_identified" => some "识别主题"
  | "tokens" => some "令牌"
  | _ => none

/-- `LanguageHelper.get_text`: the language's entry, else the English entry,
else the key itself. -/
def getText (lang : PyLang) (key : String) : String :=
  match lang with
  | PyLang.english => (translationsEN key).getD ((translationsEN key).getD key)
  | PyLang.chinese => (translationsZH key).getD ((translationsEN key).getD key)

/-- `LanguageHelper.get_language_display`. -/
def getLanguageDisplay : PyLang → String
  | PyLang.chinese => "中文"
  | PyLang.english => "English"

/-- `LLM_PROMPTS[lang]["source_summary"].format(query=, title=, content=)`. -/
def sourceSummaryPrompt (lang : PyLang) (query title content : String) : String :=
  match lang with
  | PyLang.english =>
    "\nSummarize key points from this source relevant to \"" ++ query ++ "\":\n\nSource: " ++
    title ++ "\nContent: " ++ content ++
    "\n\nProvide 2-3 sentences focusing on the most relevant information.\n"
  | PyLang.chinese =>
    "\n总结此来源中与“" ++ query ++ "”相关的要点：\n\n来源：" ++ title ++ "\n内容：" ++ content ++
    "\n\n请提供2-3句话，重点关注最相关的信息。\n"

/-- `LLM_PROMPTS[lang]["enhanced_summary"].format(query=, title=, content=)`. -/
def enhancedSummaryPrompt (lang : PyLang) (query title content : String) : String :=
  match lang with
  | PyLang.english =>
    "\nPerform an enhanced deep analysis of this source for the query \"" ++ query ++
    "\":\n\nSource: " ++ title ++ "\nContent: " ++ content ++
    "\n\nPlease provide:\n1. Key points directly relevant to the query\n" ++
    "2. Secondary insights that might be related\n" ++
    "3. Important context or background information\n4. Any actionable findings\n\n" ++
    "Provide a comprehensive 4-5 sentence summary focusing on maximizing relevance to the research query.\n"
  | PyLang.chinese =>
    "\n对此来源进行关于“" ++ query ++ "”查询的增强深度分析：\n\n来源：" ++ title ++ "\n内容：" ++
    content ++
    "\n\n请提供：\n1. 与查询直接相关的要点\n2. 可能相关的次要见解\n3. 重要的背景信息或上下文\n4. 任何可操作的发现\n\n" ++
    "请提供一个全面的4-5句话摘要，重点最大化与研究查询的相关性。\n"

/-- `LLM_PROMPTS[lang]["key_finding"].format(query=, title=, content=)`. -/
def keyFindingPrompt (lang : PyLang) (query title content : String) : String :=
  match lang with
  | PyLang.english =>
    "\nExtract the most important finding about \"" ++ query ++ "\" from this source:\n\nSource: " ++
    title ++ "\nContent: " ++ content ++ "\n\nProvide one key finding in 1-2 sentences.\n"
  | PyLang.chinese =>
    "\n从此来源中提取关于“" ++ query ++ "”最重要的发现：\n\n来源：" ++ title ++ "\n内容：" ++
    content ++ "\n\n用1-2句话提供一个关键发现。\n"

/-- `LLM_PROMPTS[lang]["final_summary"].format(query=, findings=, themes=)`. -/
def finalSummaryPrompt (lang : PyLang) (query findings themes : String) : String :=
  match lang with
  | PyLang.english =>
    "\nCreate a comprehensive research summary for: \"" ++ query ++ "\"\n\nKey Findings:\n" ++
    findings ++ "\n\nMain Themes:\n" ++ themes ++
    "\n\nStructure your response as markdown:\n\n## Executive Summary\n" ++
    "2-3 sentences overview of key insights.\n\n## Key Findings\n" ++
    "- List 3-5 most important discoveries\n- Include supporting evidence\n\n" ++
    "## Main Themes\nBrief analysis of identified patterns\n\n## Conclusions\n" ++
    "Main takeaways and recommendations.\n\nKeep response focused and under 500 words.\n"
  | PyLang.chinese =>
    "\n为“" ++ query ++ "”创建综合研究摘要\n\n关键发现：\n" ++ findings ++ "\n\n主要主题：\n" ++
    themes ++
    "\n\n请用Markdown格式构建回应：\n\n## 执行摘要\n2-3句话概述关键见解。\n\n## 关键发现\n" ++
    "- 列出3-5个最重要的发现\n- 包含支持证据\n\n## 主要主题\n对识别模式的简要分析\n\n## 结论\n" ++
    "主要要点和建议。\n\n保持回应重点突出且在500字以内。\n"

/-! ## Data model -/

/-- One image dictionary produced by the image processor and read by the
formatter (`image['url']` is always present; `alt_text`/`caption` are read with
`.get`). -/
structure ImageDict where
  url : String
  alt_text : Option String := none
  caption : Option String := none
  deriving DecidableEq, Repr

/-- The per-source dictionary built by `ContentExtractor.extract_source_content`
and passed through the pipeline.  `title`, `url`, `content` and `images` are
read elsewhere with `.get` (and may be absent on dictionaries from other
producers, e.g. raw search results handed to the formatter), so they are
`Option`s; `word_count` and `extraction_depth` are read with `[...]` only on
dictionaries the extractor itself produced, so they are plain fields. -/
structure SourceDict where
  title : Option String := none
  url : Option String := none
  content : Option String := none
  word_count : Nat := 0
  extraction_depth : String := "normal"
  images : Option (List ImageDict) := none
  deriving DecidableEq, Repr

/-- `AnalysisResult` (dataclass in `src/swarm/research/analyzer.py`). -/
structure AnalysisResult where
  summary : String
  relevance_score : ℚ
  key_finding : String
  themes : List String
  word_count : Nat
  extraction_method : String := "normal"  -- normal, deep, enhanced
  analysis_method : String := "normal"    -- normal, enhanced
  deriving DecidableEq, Repr

/-- `nav_result` returned by `browser.navigate_to_url` (`.get('status')`; a
missing key is modelled as `""`, which compares unequal to `"success"` exactly
as the Python `.get` default `None` does). -/
structure NavResult where
  status : String := ""
  deriving DecidableEq, Repr

/-- `content_result` returned by `browser.extract_page_content`
(`.get('status')` / `.get('content')`; missing keys modelled as `""`, falsy in
both uses). -/
structure PageContentResult where
  status : String := ""
  content : String := ""
  deriving DecidableEq, Repr

/-- The browser collaborator: `navigate_to_url(url)` and
`extract_page_content(query=..., max_length=...)`; `Except.error` is a raised
exception. -/
structure BrowserOracle where
  navigate_to_url : String → Except String NavResult
  extract_page_content : String → Nat → Except String PageContentResult

/-! ## `ContentExtractor` (`src/swarm/research/extractor.py`) -/

/-- `ContentExtractor.extract_source_content`.  The `try` block spans the whole
body, so any collaborator exception yields `None`; the browser-session check is
a stateless no-op in this model. -/
def extractSourceContent (browser : BrowserOracle) (url title query : String)
    (max_length : Nat) (deep_extraction : Bool) : Option SourceDict :=
  match browser.navigate_to_url url with
  | Except.error _ => none
  | Except.ok nav_result =>
    if nav_result.status ≠ "success" then none
    else
      match browser.extract_page_content query max_length with
      | Except.error _ => none
      | Except.ok content_result =>
        if content_result.status = "success" ∧ content_result.content ≠ "" then
          let content := content_result.content
          some { title := some title, url := some url, content := some content,
                 word_count := (pySplit content).length,
                 extraction_depth := if deep_extraction then "deep" else "normal" }
        else none

/-- `ContentExtractor.extract_with_retry`, instrumented: the second component
counts the `extract_source_content` calls the recursion performs. -/
def extractWithRetryAux (browser : BrowserOracle) (url title query : String)
    (config : ResearchConfig) (attempt : Nat) : Option SourceDict × Nat :=
  let max_length := if attempt = 1 then config.content_limit else config.deep_content_limit
  let deep_extraction : Bool := attempt != 1
  match extractSourceContent browser url title query max_length deep_extraction with
  | none => (none, 1)
  | some content_data =>
    if h : attempt < config.max_retry_attempts ∧
        content_data.word_count < config.min_word_count ∧ deep_extraction = false then
      let r := extractWithRetryAux browser url title query config (attempt + 1)
      (r.1, r.2 + 1)
    else (some content_data, 1)
termination_by config.max_retry_attempts - attempt
decreasing_by omega

/-- `ContentExtractor.extract_with_retry` as called (default `attempt=1`). -/
def extractWithRetry (browser : BrowserOracle) (url title query : String)
    (config : ResearchConfig) : Option SourceDict :=
  (extractWithRetryAux browser url title query config 1).1

/-! ## `ResearchAssistant._search_phase` dedup loop
(`src/swarm/research/assistant.py`, lines 113–122) -/

/-- A raw search-result dictionary from the web-search collaborator. -/
structure SearchResultDict where
  title : Option String := none
  url : Option String := none
  description : Option String := none
  deriving DecidableEq, Repr

/-- The `valid_results` / `seen_urls` filtering loop of `_search_phase`:
keep a result when `result.get("url")` is truthy and not yet seen. -/
def dedupValidResults : List SearchResultDict → List String → List SearchResultDict
  | [], _ => []
  | r :: rs, seen =>
    let u := r.url.getD ""
    if u ≠ "" ∧ u ∉ seen then r :: dedupValidResults rs (u :: seen)
    else dedupValidResults rs seen

/-- `_search_phase`'s list processing: the collaborator's results truncated to
`max_sources`, then deduplicated by url, first seen wins. -/
def searchPhaseResults (search_results : List SearchResultDict) (max_sources : Nat) :
    List SearchResultDict :=
  dedupValidResults (search_results.take max_sources) []

/-! ## `ContentAnalyzer` (`src/swarm/research/analyzer.py`)

The text-generation collaborator is an oracle `String → Except String String`
(prompt to generated text; `Except.error` is a raised exception).  The code's
streaming and non-streaming branches both produce one generated string per
prompt (§6: the streamed fragments concatenate to the non-streaming result), so
one oracle covers both. -/

/-- `ContentAnalyzer._calculate_relevance_score`.  Python sets of words are
deduplicated lists; only their cardinality and membership are used. -/
def calculateRelevanceScore (content query summary : String) : ℚ :=
  let query_words := (wordsLower query).dedup
  let content_words := (wordsLower content).dedup
  let summary_words := (wordsLower summary).dedup
  let content_overlap : ℚ :=
    if query_words ≠ [] then
      ((query_words.filter (fun w => w ∈ content_words)).length : ℚ) / (query_words.length : ℚ)
    else 0
  let summary_overlap : ℚ :=
    if query_words ≠ [] then
      ((query_words.filter (fun w => w ∈ summary_words)).length : ℚ) / (query_words.length : ℚ)
    else 0
  let content_quality : ℚ := min (((pySplit content).length : ℚ) / 100) 1
  let relevance_score := (content_overlap * 4 + summary_overlap * 4 + content_quality * 2) * 10
  min relevance_score 10

/-- The stop-word list of `ContentAnalyzer._extract_themes`. -/
def themeStopWords : List String :=
  ["that", "this", "with", "from", "they", "have", "will", "been", "were", "said",
   "what", "when", "where", "would", "could", "should", "about", "which", "their",
   "there", "these", "those"]

/-- `ContentAnalyzer._extract_themes`: top-5 most frequent meaningful words,
kept only when their frequency exceeds 1, title-cased. -/
def extractThemes (content _query : String) : List String :=
  let words := wordsLower content
  let meaningful_words := words.filter (fun w => 4 < pyLen w ∧ w ∉ themeStopWords)
  let word_freq := countOcc meaningful_words
  let themes := (sortByCountDesc word_freq).take 5
  (themes.filter (fun p => 1 < p.2)).map (fun p => pyTitle p.1)

/-- `ContentAnalyzer._analyze_source`.  The `try` block covers both generation
calls (score and themes are local computations that cannot raise); an exception
from either call produces the degraded result with `relevance_score = 1.0`. -/
def analyzeSource (llm : String → Except String String) (lang : PyLang)
    (source : SourceDict) (query : String) (method : String) : AnalysisResult :=
  let title := source.title.getD "Unknown"
  let content := source.content.getD ""
  if content = "" then
    { summary := "No content available for analysis", relevance_score := 0,
      key_finding := "Unable to extract content", themes := [], word_count := 0,
      extraction_method := "normal", analysis_method := method }
  else
    let word_count := (pySplit content).length
    let prompt_template :=
      if method = "enhanced" then enhancedSummaryPrompt lang query title content
      else sourceSummaryPrompt lang query title content
    match llm prompt_template with
    | Except.error e =>
      { summary := "Error analyzing content: " ++ e, relevance_score := 1,
        key_finding := "Analysis failed", themes := [], word_count := word_count,
        extraction_method := "normal", analysis_method := method }
    | Except.ok summary_response =>
      let summary := pyStrip summary_response
      match llm (keyFindingPrompt lang query title content) with
      | Except.error e =>
        { summary := "Error analyzing content: " ++ e, relevance_score := 1,
          key_finding := "Analysis failed", themes := [], word_count := word_count,
          extraction_method := "normal", analysis_method := method }
      | Except.ok finding_response =>
        let key_finding := pyStrip finding_response
        let relevance_score := calculateRelevanceScore content query summary
        let themes := extractThemes content query
        { summary := summary, relevance_score := relevance_score,
          key_finding := key_finding, themes := themes, word_count := word_count,
          extraction_method := "normal", analysis_method := method }

/-- `ContentAnalyzer._extract_deep_content`: returns the source's existing
content, truncated to `deep_content_limit`, or `None` when empty. -/
def extractDeepContent (cfg : ResearchConfig) (source : SourceDict) : Option String :=
  let content := source.content.getD ""
  let content :=
    if cfg.deep_content_limit < pyLen content then
      pyTake content cfg.deep_content_limit ++ "..."
    else content
  if content ≠ "" then some content else none

/-- `ContentAnalyzer._analyze_source_with_intelligence`. -/
def analyzeSourceWithIntelligence (llm : String → Except String String) (lang : PyLang)
    (cfg : ResearchConfig) (source : SourceDict) (query : String) : AnalysisResult :=
  let analysis := analyzeSource llm lang source query "normal"
  let needs_enhancement :=
    analysis.relevance_score < cfg.relevance_threshold ∨
    analysis.word_count < cfg.min_word_count
  if needs_enhancement ∧ 0 < cfg.max_retry_attempts then
    if analysis.word_count < cfg.min_word_count then
      match extractDeepContent cfg source with
      | some enhanced_content =>
        let source' := { source with content := some enhanced_content }
        let analysis' := analyzeSource llm lang source' query "enhanced"
        { analysis' with extraction_method := "deep", analysis_method := "enhanced" }
      | none => analysis
    else if analysis.relevance_score < cfg.relevance_threshold then
      let analysis' := analyzeSource llm lang source query "enhanced"
      { analysis' with analysis_method := "enhanced" }
    else analysis
  else analysis

/-- `ContentAnalyzer.generate_final_summary`: one generation attempt; an
exception is caught and turned into the error string (no retry, no fallback
report). -/
def generateFinalSummary (llm : String → Except String String) (lang : PyLang)
    (analyses : List AnalysisResult) (query : String) : String :=
  let relevant := analyses.filter (fun a => (3 : ℚ) ≤ a.relevance_score)
  let findings := relevant.map (fun a => "• " ++ a.key_finding)
  let all_themes := (relevant.map (fun a => a.themes)).flatten
  let theme_counts := countOcc all_themes
  let top_themes := (sortByCountDesc theme_counts).take 5
  let themes_text :=
    pyJoin "\n" (top_themes.map (fun t => "• " ++ t.1 ++ " (mentioned " ++ Nat.repr t.2 ++ " times)"))
  let prompt := finalSummaryPrompt lang query (pyJoin "\n" findings) themes_text
  match llm prompt with
  | Except.ok summary => pyStrip summary
  | Except.error e => "Error generating summary: " ++ e

/-! ## `EnhancedResearchAssistant._phase_4_final_summary`
(`src/swarm/cli/commands/research_assistant.py`, lines 246–338)

Its LLM oracle is indexed by the loop iteration so that the number and content
of generation calls can be stated; `Except.error` is a raised exception. -/

/-- One element of `key_findings` as built by `_phase_3_content_synthesis`. -/
structure KeyFinding where
  source_title : String
  source_url : String
  finding : String
  relevance_score : ℚ
  deriving DecidableEq, Repr

/-- `findings_text`: the prompt fragment built from the top findings. -/
def findingsTextOf (limited_findings : List KeyFinding) : String :=
  pyJoin "\n\n"
    (limited_findings.map (fun f =>
      "Source: " ++ pyTake f.source_title 50 ++ "...\nFinding: " ++ pyTake f.finding 200 ++ "..."))

/-- The full prompt built at the top of every loop iteration of
`_phase_4_final_summary`. -/
def phase4FullPrompt (query findings_text : String) : String :=
  "\nBased on research about \"" ++ query ++
  "\", provide a structured report using these findings:\n\n" ++ findings_text ++
  "\n\nStructure your response as:\n\n## Executive Summary\n" ++
  "2-3 sentences overview of key insights.\n\n## Key Findings\n" ++
  "- List 3-5 most important discoveries\n- Include supporting evidence\n\n" ++
  "## Conclusions\nMain takeaways and their importance.\n\n" ++
  "Keep the response concise but comprehensive. Focus on actionable insights.\n"

/-- The shorter retry prompt assigned in the `except` branch of
`_phase_4_final_summary` (and then overwritten before any use). -/
def phase4ShortPrompt (query findings_text : String) : String :=
  "\nSummarize research findings about \"" ++ query ++ "\":\n\n" ++
  pyTake findings_text 500 ++
  "...\n\nProvide:\n1. Key insights (2-3 points)\n2. Main conclusions\n" ++
  "3. Recommendations\n\nKeep response under 300 words.\n"

/-- The `enumerate(limited_findings, 1)` loop that appends one block per
finding to the fallback summary. -/
def findingsLines : Nat → List KeyFinding → String
  | _, [] => ""
  | i, f :: fs =>
    (("\n" ++ Nat.repr i ++ ". **") ++
      (pyTake f.source_title 50 ++ ("...**\n" ++ ("   Finding: " ++
        (pyTake f.finding 150 ++ "...\n"))))) ++ findingsLines (i + 1) fs

/-- The structured fallback summary built when all retries fail
(`max_retries = 3` is the literal in the source). -/
def phase4Fallback (query e : String) (limited_findings : List KeyFinding)
    (analyzedCount kfTotal : Nat) : String :=
  "\n## Research Summary: " ++ (query ++
  ("\n\n### Status\nFinal summary generation encountered technical difficulties after 3 attempts.\nError: " ++
  (e ++
  ("\n\n### Key Findings Discovered\n" ++
  (findingsLines 1 limited_findings ++
  ("\n### Research Statistics\n- Sources Analyzed: " ++
  (Nat.repr analyzedCount ++
  ("\n- Key Findings: " ++
  (Nat.repr kfTotal ++
  ("\n- Query: " ++
  (query ++
  ("\n\n### Note\nWhile the AI summary generation failed, the raw research findings above provide valuable insights about " ++
  (query ++ ".\n")))))))))))))

/-- The `for attempt in range(max_retries)` loop of `_phase_4_final_summary`.
The second argument is the current value of the Python variable `final_prompt`:
the loop body reassigns it to the full prompt before the generation call, so
the shorter prompt installed by the `except` branch of the previous iteration
is never sent.  The second component of the result is the list of prompts
actually passed to `self.llm.generate`.  The `[]` case is unreachable for
`range(3)` because the last iteration always returns. -/
def phase4Go (llm : Nat → String → Except String String) (query findings_text : String)
    (limited_findings : List KeyFinding) (analyzedCount kfTotal : Nat) :
    List Nat → String → String × List String
  | [], _ => ("", [])
  | attempt :: rest, _final_prompt =>
    let final_prompt := phase4FullPrompt query findings_text
    match llm attempt final_prompt with
    | Except.ok final_summary => (final_summary, [final_prompt])
    | Except.error e =>
      if attempt < 3 - 1 then
        let retry_prompt := phase4ShortPrompt query findings_text
        let r := phase4Go llm query findings_text limited_findings analyzedCount kfTotal
          rest retry_prompt
        (r.1, final_prompt :: r.2)
      else (phase4Fallback query e limited_findings analyzedCount kfTotal, [final_prompt])

/-- `EnhancedResearchAssistant._phase_4_final_summary`: result text and the
prompts sent.  `analyzedCount` is `len(self.research_data['analyzed_sources'])`. -/
def phase4FinalSummary (llm : Nat → String → Except String String) (query : String)
    (key_findings : List KeyFinding) (analyzedCount : Nat) : String × List String :=
  let limited_findings := key_findings.take 5
  let findings_text := findingsTextOf limited_findings
  phase4Go llm query findings_text limited_findings analyzedCount key_findings.length
    (List.range 3) ""

/-! ## `ResearchFormatter.generate_markdown_report`
(`src/swarm/research/formatter.py`, lines 117–311)

The Python method reads the wall clock (`datetime.now().strftime(...)`) when it
runs; that clock reading is the explicit `timestamp` parameter here.  List
indexing `sources[i]` out of range would raise in Python; it is modelled with
`[i]?`, yielding the `.get` defaults for the affected fields (the pipeline
always calls the formatter with aligned lists). -/

/-- `report += f(i, x)` over `enumerate(l, start)`. -/
def joinEnum {α : Type} (start : Nat) (l : List α) (f : Nat → α → String) : String :=
  match l with
  | [] => ""
  | x :: xs => f start x ++ joinEnum (start + 1) xs f

/-- The key-findings section (filter by `max(3.0, relevance_threshold - 2.0)`,
top 6, each with the title of its positionally matching source). -/
def mdKeyFindings (cfg : Config) (lang : PyLang) (analyses : List AnalysisResult)
    (sources : List SourceDict) : String :=
  let key_findings :=
    (analyses.filter (fun a => max 3 (cfg.research.relevance_threshold - 2) ≤ a.relevance_score)).take 6
  joinEnum 1 key_findings (fun i analysis =>
    "\n### " ++ getText lang "finding" ++ " " ++ Nat.repr i ++ "\n\n**" ++
    getText lang "relevance_score" ++ ":** " ++ fmtFix1 analysis.relevance_score ++
    "/10  \n**" ++ getText lang "source" ++ ":** " ++
    (((sources[analyses.indexOf analysis]?).bind (fun s => s.title)).getD "Unknown") ++
    "\n\n" ++ analysis.key_finding ++ "\n\n")

/-- The themes section (only emitted when `top_themes` is nonempty). -/
def mdThemes (lang : PyLang) (analyses : List AnalysisResult) (sources : List SourceDict)
    (top_themes : List (String × Nat)) : String :=
  if top_themes ≠ [] then
    "---\n\n## " ++ getText lang "identified_themes" ++ "\n\n" ++
    String.join (top_themes.map (fun tc =>
      let supporting_sources :=
        ((analyses.enum.filter (fun p => tc.1 ∈ p.2.themes)).map (fun p =>
          pyTake (((sources[p.1]?).bind (fun s => s.title)).getD "Unknown") 50)).take 3
      "\n### " ++ tc.1 ++ "\n\n**" ++ getText lang "supporting_sources" ++ ":** " ++
      Nat.repr tc.2 ++ "  \n**" ++ getText lang "sources_found" ++ ":** " ++
      pyJoin ", " supporting_sources ++ "\n\n"))
  else ""

/-- The images section (only when enabled and images exist; 12 image cap). -/
def mdImages (lang : PyLang) (include_images : Bool) (all_images : List ImageDict) : String :=
  if include_images ∧ all_images ≠ [] then
    "---\n\n## " ++ getText lang "relevant_images" ++ "\n\n" ++
    joinEnum 1 (all_images.take 12) (fun i image =>
      let alt := image.alt_text.getD ""
      let cap := image.caption.getD ""
      if alt ≠ "" ∨ cap ≠ "" then
        let description := if alt ≠ "" then alt else cap
        "\n### Image " ++ Nat.repr i ++ ": " ++ pyTake description 100 ++ "...\n\n![" ++
        description ++ "](" ++ image.url ++ ")\n\n"
      else
        "\n### Image " ++ Nat.repr i ++ "\n\n![Research Image " ++ Nat.repr i ++ "](" ++
        image.url ++ ")\n\n")
  else ""

/-- The per-source detail section (`zip(analyses, sources)`). -/
def mdDetailed (lang : PyLang) (analyses : List AnalysisResult)
    (sources : List SourceDict) : String :=
  "---\n\n## " ++ getText lang "detailed_source_analysis" ++ "\n\n" ++
  joinEnum 1 (analyses.zip sources) (fun i p =>
    let analysis := p.1
    let source := p.2
    let extraction_depth :=
      if analysis.extraction_method = "deep" then "🔍 Deep" else "📄 Normal"
    let analysis_depth :=
      if analysis.analysis_method = "enhanced" then "🧠 Enhanced" else "🔍 Standard"
    "\n### " ++ Nat.repr i ++ ". " ++ (source.title.getD "Unknown") ++ "\n\n**URL:** " ++
    (source.url.getD "N/A") ++ "  \n**" ++ getText lang "relevance_score" ++ ":** " ++
    fmtFix1 analysis.relevance_score ++ "/10  \n**" ++ getText lang "word_count" ++
    ":** " ++ fmtComma analysis.word_count ++ "  \n**Extraction:** " ++ extraction_depth ++
    " | **Analysis:** " ++ analysis_depth ++ "\n\n#### " ++ getText lang "summary" ++
    "\n" ++ analysis.summary ++ "\n\n#### " ++ getText lang "key_findings" ++ "\n" ++
    analysis.key_finding ++ "\n\n" ++
    (if analysis.themes ≠ [] then
      "**" ++ getText lang "identified_themes" ++ ":** " ++ pyJoin ", " analysis.themes ++ "\n\n"
    else "") ++
    (let content_preview := pyTake (source.content.getD "") 300
     if content_preview ≠ "" then
       "\n#### " ++ getText lang "content_preview" ++ "\n```\n" ++ content_preview ++
       "...\n```\n\n"
     else ""))

/-- The tabular index of all sources. -/
def mdTable (lang : PyLang) (analyses : List AnalysisResult)
    (sources : List SourceDict) : String :=
  "---\n\n## " ++ getText lang "all_search_results" ++ "\n\n| # | " ++
  getText lang "source" ++ " | " ++ getText lang "relevance_score" ++ " | " ++
  getText lang "word_count" ++ " | Depth |\n|---|-------|------------|------|-------|\n" ++
  joinEnum 1 (analyses.zip sources) (fun i p =>
    let analysis := p.1
    let source := p.2
    let extraction_indicator := if analysis.extraction_method = "deep" then "D" else "N"
    let analysis_indicator := if analysis.analysis_method = "enhanced" then "E" else "N"
    let depth_display := extraction_indicator ++ "/" ++ analysis_indicator
    "| " ++ Nat.repr i ++ " | [" ++ pyTake (source.title.getD "Unknown") 40 ++ "...](" ++
    (source.url.getD "#") ++ ") | " ++ fmtFix1 analysis.relevance_score ++ " | " ++
    fmtComma analysis.word_count ++ " | " ++ depth_display ++ " |\n")

/-- The depth legend and final statistics block. -/
def mdFooter (lang : PyLang) (total_words : Nat) (avg_relevance : ℚ)
    (high_relevance_count analysesLen themeCount : Nat) : String :=
  "\n\n### " ++ getText lang "depth_legend" ++
  "\n- **N/N**: Normal extraction, Standard analysis\n" ++
  "- **D/N**: Deep extraction, Standard analysis  \n" ++
  "- **N/E**: Normal extraction, Enhanced analysis\n" ++
  "- **D/E**: Deep extraction, Enhanced analysis\n\n### Research Statistics\n" ++
  "- **Total Words Analyzed:** " ++ fmtComma total_words ++
  "\n- **Average Relevance Score:** " ++ fmtFix1 avg_relevance ++
  "/10\n- **High Relevance Sources:** " ++ Nat.repr high_relevance_count ++ "/" ++
  Nat.repr analysesLen ++ "\n- **Unique Themes Identified:** " ++ Nat.repr themeCount ++
  "\n- **Language:** " ++ getLanguageDisplay lang ++ "\n\n---\n\n*" ++
  getText lang "research_report" ++ " generated by Swarm Research Assistant*\n"

/-- Everything of the report that precedes the embedded clock reading. -/
def mdReportHead (lang : PyLang) (query : String) : String :=
  "# " ++ getText lang "research_report" ++ ": " ++ query ++ "\n\n**" ++
  getText lang "generated" ++ ":** "

/-- Everything of the report that follows the embedded clock reading. -/
def mdReportTail (cfg : Config) (lang : PyLang) (_query : String)
    (analyses : List AnalysisResult) (final_summary : String)
    (sources : List SourceDict) (include_images : Bool) : String :=
  let total_words := (analyses.map (fun a => a.word_count)).sum
  let avg_relevance : ℚ :=
    if analyses ≠ [] then
      (analyses.map (fun a => a.relevance_score)).sum / (analyses.length : ℚ)
    else 0
  let high_relevance_count :=
    (analyses.filter (fun a => cfg.research.relevance_threshold ≤ a.relevance_score)).length
  let all_themes := countOcc (analyses.map (fun a => a.themes)).flatten
  let top_themes := (sortByCountDesc all_themes).take 8
  let all_images :=
    if include_images then (sources.map (fun s => s.images.getD [])).flatten else []
  "  \n**" ++ getText lang "model" ++ ":** " ++ cfg.llm.model ++ "  \n**" ++
  getText lang "context_size" ++ ":** " ++ fmtComma cfg.llm.max_tokens ++ " " ++
  getText lang "tokens" ++ "  \n**" ++ getText lang "sources_analyzed" ++ ":** " ++
  Nat.repr sources.length ++ "  \n**" ++ getText lang "images_found" ++ ":** " ++
  Nat.repr all_images.length ++ "\n\n---\n\n## " ++ getText lang "executive_summary" ++
  "\n\n" ++ final_summary ++ "\n\n---\n\n## " ++ getText lang "key_findings" ++ "\n\n" ++
  mdKeyFindings cfg lang analyses sources ++
  mdThemes lang analyses sources top_themes ++
  mdImages lang include_images all_images ++
  mdDetailed lang analyses sources ++
  mdTable lang analyses sources ++
  mdFooter lang total_words avg_relevance high_relevance_count analyses.length
    all_themes.length

/-- `ResearchFormatter.generate_markdown_report`: the document is the head,
then the clock reading taken at invocation time, then the rest. -/
def generateMarkdownReport (cfg : Config) (lang : PyLang) (query : String)
    (analyses : List AnalysisResult) (final_summary : String)
    (sources : List SourceDict) (include_images : Bool) (timestamp : String) : String :=
  mdReportHead lang query ++
    (timestamp ++ mdReportTail cfg lang query analyses final_summary sources include_images)

/-! ## Spec-side definitions and concrete instances

The spec-modelled relevance formula (compared against the code's in C5), the
substring predicate used to state report/fallback containment properties, and
the concrete oracle behaviours and data used by counterexamples and witnesses. -/

/-- `p` occurs as a contiguous substring of `s`. -/
def Substr (p s : String) : Prop := p.data <:+: s.data

instance (p s : String) : Decidable (Substr p s) :=
  inferInstanceAs (Decidable (p.data <:+: s.data))

/-- Modelled from the spec's words: the overlap ratio
`|query terms ∩ text terms| / |query terms|` under case-insensitive whole-word
matching, `0` when the query has no terms. -/
def specOverlapRatio (query text : String) : ℚ :=
  let qterms := (wordsLower query).dedup
  let tterms := (wordsLower text).dedup
  if qterms = [] then 0
  else ((qterms.filter (fun w => w ∈ tterms)).length : ℚ) / (qterms.length : ℚ)

/-- Modelled from the spec's words:
`10 * clamp((content overlap)*4 + (summary overlap)*4 + min(word_count/100,1)*2, 0, 1)`. -/
def specRelevanceScore (content query summary : String) : ℚ :=
  let word_count : ℚ := ((pySplit content).length : ℚ)
  10 * max 0 (min
    (specOverlapRatio query content * 4 + specOverlapRatio query summary * 4 +
      min (word_count / 100) 1 * 2) 1)

/-- An always-raising text-generation oracle. -/
def llmAlwaysFail : String → Except String String := fun _ => Except.error "timeout"

/-- A sample analysis result used to instantiate hypotheses concretely. -/
def sampleAnalysis : AnalysisResult :=
  { summary := "s", relevance_score := 5, key_finding := "f", themes := ["solar"],
    word_count := 10 }

/-- A configuration with `max_retry_attempts = 0`, valid under the pydantic
bound `ge=0` of `src/swarm/core/config.py`. -/
def cfgZeroRetry : ResearchConfig := { max_retry_attempts := 0 }

/-- A browser whose navigation and extraction always succeed with a short text. -/
def browserHappy : BrowserOracle where
  navigate_to_url := fun _ => Except.ok { status := "success" }
  extract_page_content := fun _ _ => Except.ok { status := "success", content := "hello world" }

/-- The retried result returned when the first extraction is thin: the deep
re-extraction of `browserHappy`'s page. -/
def happyDeepResult : SourceDict :=
  { title := some "t", url := some "u", content := some "hello world",
    word_count := 2, extraction_depth := "deep" }

/-- The browser behaviour of C4's failing input: the normal-budget extraction
succeeds with thin content, the escalated deep-budget extraction reports an
error status. -/
def browserThinThenError : BrowserOracle where
  navigate_to_url := fun _ => Except.ok { status := "success" }
  extract_page_content := fun _ max_length =>
    if max_length = 4096 then Except.ok { status := "success", content := "too thin" }
    else Except.ok { status := "error", content := "" }

/-- A content string of `n` whitespace-separated words `"a"`. -/
def mkContent (n : Nat) : String := pyJoin " " (List.replicate n "a")

/-- `n` copies of `" a"`. -/
def repSpaceA : Nat → String
  | 0 => ""
  | n + 1 => " a" ++ repSpaceA n

/-- The content string of the C3 scenario's deep retry: 900 words. -/
def c900 : String := mkContent 900

/-- The `ExtractedSource` dictionary the deep retry of the C3 scenario yields. -/
def srcC3deep : SourceDict :=
  { title := some "t", url := some "u", content := some c900,
    word_count := 900, extraction_depth := "deep" }

/-- The browser of the C3 scenario: 120 words under the normal budget, 900
words under the deep budget. -/
def browserC3 : BrowserOracle where
  navigate_to_url := fun _ => Except.ok { status := "success" }
  extract_page_content := fun _ max_length =>
    if max_length = 4096 then Except.ok { status := "success", content := mkContent 120 }
    else Except.ok { status := "success", content := c900 }

/-- A text-generation oracle that always answers `"a"`. -/
def llmOkA : String → Except String String := fun _ => Except.ok "a"

/-- The `ExtractedSource` dictionary of the C3 scenario's first (thin) attempt. -/
def srcC3first : SourceDict :=
  { title := some "t", url := some "u", content := some (mkContent 120),
    word_count := 120, extraction_depth := "normal" }

/-- An always-raising indexed text-generation oracle for the CLI phase-4 loop. -/
def llmIdxFail : Nat → String → Except String String := fun _ _ => Except.error "boom"

/-- A sample key finding for instantiating the phase-4 fallback concretely. -/
def kfSample : KeyFinding :=
  { source_title := "Solar study", source_url := "http://s", finding := "Solar is growing",
    relevance_score := 7 }

/-! ## General string lemmas -/

theorem string_eq_of_data (s t : String) (h : s.data = t.data) : s = t := by
  cases s
  cases t
  simp only at h
  rw [h]

theorem substr_app_left (p s t : String) (h : Substr p t) : Substr p (s ++ t) := by
  obtain ⟨u, v, huv⟩ := h
  exact ⟨s.data ++ u, v, by simp [String.data_append, ← huv]⟩

theorem substr_app_right (p s t : String) (h : Substr p s) : Substr p (s ++ t) := by
  obtain ⟨u, v, huv⟩ := h
  exact ⟨u, v ++ t.data, by simp [String.data_append, ← huv]⟩

theorem substr_here (x a r : String) : Substr x (a ++ (x ++ r)) :=
  ⟨a.data, r.data, by simp [String.data_append]⟩

theorem substr_seam (a b c d r : String) (h : a = b ++ c) :
    Substr (c ++ d) (a ++ (d ++ r)) :=
  ⟨b.data, r.data, by simp [h, String.data_append]⟩

/-! ## Claim C7 -/

/-- The full invariant of the `_search_phase` dedup loop, generalised over the
already-seen url set. -/
theorem dedupValid_spec (rs : List SearchResultDict) (seen : List String) :
    (dedupValidResults rs seen).Sublist rs ∧
    (∀ r ∈ dedupValidResults rs seen, r.url.getD "" ≠ "" ∧ r.url.getD "" ∉ seen) ∧
    ((dedupValidResults rs seen).map (fun r => r.url.getD "")).Nodup ∧
    (∀ r ∈ dedupValidResults rs seen,
      rs.find? (fun x => x.url.getD "" == r.url.getD "") = some r) := by
  induction rs generalizing seen with
  | nil => simp [dedupValidResults]
  | cons a rs ih =>
    by_cases hcond : a.url.getD "" ≠ "" ∧ a.url.getD "" ∉ seen
    · obtain ⟨ih1, ih2, ih3, ih4⟩ := ih (a.url.getD "" :: seen)
      simp only [dedupValidResults, if_pos hcond]
      refine ⟨List.Sublist.cons₂ _ ih1, ?_, ?_, ?_⟩
      · intro r hr
        rcases List.mem_cons.mp hr with h | h
        · exact h ▸ hcond
        · exact ⟨(ih2 r h).1, fun hm => (ih2 r h).2 (List.mem_cons_of_mem _ hm)⟩
      · refine List.nodup_cons.mpr ⟨?_, ih3⟩
        intro hmem
        obtain ⟨r, hr, hkey⟩ := List.mem_map.mp hmem
        exact (ih2 r hr).2 (hkey ▸ List.mem_cons_self _ _)
      · intro r hr
        rcases List.mem_cons.mp hr with h | h
        · subst h
          simp [List.find?_cons]
        · have hne : a.url.getD "" ≠ r.url.getD "" := by
            intro he
            exact (ih2 r h).2 (he ▸ List.mem_cons_self _ _)
          have : (a.url.getD "" == r.url.getD "") = false := beq_eq_false_iff_ne.mpr hne
          simp only [List.find?_cons, this]
          exact ih4 r h
    · obtain ⟨ih1, ih2, ih3, ih4⟩ := ih seen
      simp only [dedupValidResults, if_neg hcond]
      refine ⟨ih1.cons _, ih2, ih3, ?_⟩
      intro r hr
      have hne : a.url.getD "" ≠ r.url.getD "" := by
        rcases not_and_or.mp hcond with h | h
        · push_neg at h
          intro he
          exact (ih2 r hr).1 (he ▸ h)
        · push_neg at h
          intro he
          exact (ih2 r hr).2 (he ▸ h)
      have : (a.url.getD "" == r.url.getD "") = false := beq_eq_false_iff_ne.mpr hne
      simp only [List.find?_cons, this]
      exact ih4 r hr

/-- Claim C7 (confirmed): for any input list of search results, `_search_phase`'s
output list has pairwise-distinct urls, is a sublist of the (truncated) input
(so surviving entries keep their relative order), and every surviving entry is
the first entry of the input that carries its url — i.e. each url appears at
most once, first seen wins. -/
theorem C7_dedup_first_seen (search_results : List SearchResultDict) (max_sources : Nat) :
    ((searchPhaseResults search_results max_sources).map (fun r => r.url.getD "")).Nodup ∧
    (searchPhaseResults search_results max_sources).Sublist (search_results.take max_sources) ∧
    ∀ r ∈ searchPhaseResults search_results max_sources,
      (search_results.take max_sources).find? (fun x => x.url.getD "" == r.url.getD "") = some r := by
  obtain ⟨h1, _h2, h3, h4⟩ := dedupValid_spec (search_results.take max_sources) []
  exact ⟨h3, h1, h4⟩

/-! ## Claim C5 -/

theorem specOverlapRatio_nonneg (query text : String) : 0 ≤ specOverlapRatio query text := by
  simp only [specOverlapRatio]
  split
  · exact le_refl 0
  · positivity

/-- The one arithmetic fact separating the code's `min(score*10, 10.0)` from
the spec's `10 * clamp(score, 0, 1)`: they agree on nonnegative scores. -/
theorem min_mul_ten (s : ℚ) (hs : 0 ≤ s) : min (s * 10) 10 = 10 * max 0 (min s 1) := by
  rcases le_total s 1 with h1 | h1
  · rw [min_eq_left (by nlinarith), min_eq_left h1, max_eq_right hs]
    ring
  · rw [min_eq_right (by nlinarith), min_eq_right h1, max_eq_right (by norm_num)]
    norm_num

/-- Claim C5 (confirmed): the relevance score computed by the analyzer equals
the spec's `10 * clamp(..., 0, 1)` formula for every content, query and
summary string. -/
theorem C5_relevance_formula (content query summary : String) :
    calculateRelevanceScore content query summary = specRelevanceScore content query summary := by
  unfold calculateRelevanceScore specRelevanceScore specOverlapRatio
  set q := (wordsLower query).dedup with hq
  have hw0 : (0 : ℚ) ≤ min (((pySplit content).length : ℚ) / 100) 1 :=
    le_min (by positivity) (by norm_num)
  by_cases hqe : q = []
  · simp only [hqe, ne_eq, not_true_eq_false, if_false, if_true, ite_true, ite_false]
    exact min_mul_ten _ (by nlinarith)
  · simp only [hqe, ne_eq, not_false_eq_true, if_true, if_false, ite_true, ite_false]
    have hco0 : (0 : ℚ) ≤
        ((q.filter (fun w => w ∈ (wordsLower content).dedup)).length : ℚ) / (q.length : ℚ) := by
      positivity
    have hso0 : (0 : ℚ) ≤
        ((q.filter (fun w => w ∈ (wordsLower summary).dedup)).length : ℚ) / (q.length : ℚ) := by
      positivity
    exact min_mul_ten _ (by nlinarith)

/-! ## Claim C8 -/

theorem calculateRelevanceScore_bounds (content query summary : String) :
    0 ≤ calculateRelevanceScore content query summary ∧
    calculateRelevanceScore content query summary ≤ 10 := by
  unfold calculateRelevanceScore
  dsimp only
  have hw0 : (0 : ℚ) ≤ min (((pySplit content).length : ℚ) / 100) 1 :=
    le_min (by positivity) (by norm_num)
  refine ⟨le_min ?_ (by norm_num), min_le_right _ _⟩
  have hco : (0 : ℚ) ≤
      (if (wordsLower query).dedup ≠ [] then
        (((wordsLower query).dedup.filter (fun w => w ∈ (wordsLower content).dedup)).length : ℚ) /
          (((wordsLower query).dedup.length : ℚ))
      else 0) := by
    split
    · positivity
    · exact le_refl 0
  have hso : (0 : ℚ) ≤
      (if (wordsLower query).dedup ≠ [] then
        (((wordsLower query).dedup.filter (fun w => w ∈ (wordsLower summary).dedup)).length : ℚ) /
          (((wordsLower query).dedup.length : ℚ))
      else 0) := by
    split
    · positivity
    · exact le_refl 0
  nlinarith

theorem analyzeSource_score_bounds (llm : String → Except String String) (lang : PyLang)
    (source : SourceDict) (query method : String) :
    0 ≤ (analyzeSource llm lang source query method).relevance_score ∧
    (analyzeSource llm lang source query method).relevance_score ≤ 10 := by
  unfold analyzeSource
  dsimp only
  split
  · exact ⟨le_refl 0, by norm_num⟩
  · split
    · exact ⟨by norm_num, by norm_num⟩
    · split
      · exact ⟨by norm_num, by norm_num⟩
      · exact calculateRelevanceScore_bounds _ _ _

/-- Claim C8 (confirmed): on every path of per-source analysis — successful
analysis, the degraded analysis-failure path (score `1.0`), the empty-content
path (score `0.0`), and the escalated second pass — the produced
`AnalysisResult` satisfies `0 ≤ relevance_score ≤ 10`. -/
theorem C8_score_bounds (llm : String → Except String String) (lang : PyLang)
    (cfg : ResearchConfig) (source : SourceDict) (query method : String) :
    (0 ≤ (analyzeSource llm lang source query method).relevance_score ∧
      (analyzeSource llm lang source query method).relevance_score ≤ 10) ∧
    (0 ≤ (analyzeSourceWithIntelligence llm lang cfg source query).relevance_score ∧
      (analyzeSourceWithIntelligence llm lang cfg source query).relevance_score ≤ 10) := by
  refine ⟨analyzeSource_score_bounds llm lang source query method, ?_⟩
  unfold analyzeSourceWithIntelligence
  dsimp only
  split
  · split
    · split
      · exact analyzeSource_score_bounds _ _ _ _ _
      · exact analyzeSource_score_bounds _ _ _ _ _
    · split
      · exact analyzeSource_score_bounds _ _ _ _ _
      · exact analyzeSource_score_bounds _ _ _ _ _
  · exact analyzeSource_score_bounds _ _ _ _ _

/-! ## Claim C2 -/

theorem string_append_ne_empty_left (s t : String) (hs : s ≠ "") : s ++ t ≠ "" := by
  intro h
  apply hs
  have hd := congrArg String.data h
  rw [String.data_append] at hd
  exact string_eq_of_data s "" (List.append_eq_nil.mp hd).1

/-- With a text-generation collaborator that raises on every call,
`generate_final_summary` returns the caught-error string. -/
theorem generateFinalSummary_error (llm : String → Except String String) (lang : PyLang)
    (analyses : List AnalysisResult) (query : String)
    (hfail : ∀ p, ∃ e, llm p = Except.error e) :
    ∃ e, generateFinalSummary llm lang analyses query = "Error generating summary: " ++ e := by
  unfold generateFinalSummary
  dsimp only
  obtain ⟨e, he⟩ := hfail _
  exact ⟨e, by rw [he]⟩

/-- Claim C2 (confirmed): for every non-empty list of analyses and every query,
`generate_final_summary` returns a non-empty string even when every call to the
text-generation collaborator raises; the exception is caught inside the
function (the embedding is a total function into `String`), so the failure
never propagates to the caller. -/
theorem C2_synthesis_nonempty (llm : String → Except String String) (lang : PyLang)
    (analyses : List AnalysisResult) (query : String)
    (_hne : analyses ≠ [])
    (hfail : ∀ p, ∃ e, llm p = Except.error e) :
    generateFinalSummary llm lang analyses query ≠ "" := by
  obtain ⟨e, he⟩ := generateFinalSummary_error llm lang analyses query hfail
  rw [he]
  exact string_append_ne_empty_left _ _ (by decide)

theorem C2_witness :
    (([sampleAnalysis] : List AnalysisResult) ≠ [] ∧
      (∀ p, ∃ e, llmAlwaysFail p = Except.error e)) ∧
    generateFinalSummary llmAlwaysFail PyLang.english [sampleAnalysis] "q" ≠ "" :=
  ⟨⟨by simp, fun _ => ⟨"timeout", rfl⟩⟩,
    C2_synthesis_nonempty llmAlwaysFail PyLang.english [sampleAnalysis] "q" (by simp)
      (fun _ => ⟨"timeout", rfl⟩)⟩

/-! ## Claims C6, C10, C4: the extractor's retry recursion -/

/-- Well-formedness of every dictionary `extract_source_content` produces. -/
theorem extractSourceContent_wf (browser : BrowserOracle) (url title query : String)
    (max_length : Nat) (deep_extraction : Bool) (r : SourceDict)
    (h : extractSourceContent browser url title query max_length deep_extraction = some r) :
    r.title = some title ∧ r.url = some url ∧
    (∃ c, r.content = some c ∧ c ≠ "" ∧ r.word_count = (pySplit c).length) ∧
    r.extraction_depth = (if deep_extraction then "deep" else "normal") := by
  unfold extractSourceContent at h
  split at h
  · exact absurd h (by simp)
  · split at h
    · exact absurd h (by simp)
    · split at h
      · exact absurd h (by simp)
      · rename_i content_result hok
        split at h
        · rename_i hsucc
          obtain ⟨rfl⟩ := Option.some.inj h
          exact ⟨rfl, rfl, ⟨content_result.content, rfl, hsucc.2, rfl⟩, rfl⟩
        · exact absurd h (by simp)

/-- The first unfolding of `extract_with_retry` at `attempt = 1`, with the
attempt-dependent parameters reduced (`max_length = content_limit`,
`deep_extraction = false`). -/
theorem extractWithRetryAux_one (browser : BrowserOracle) (url title query : String)
    (cfg : ResearchConfig) :
    extractWithRetryAux browser url title query cfg 1 =
      match extractSourceContent browser url title query cfg.content_limit false with
      | none => (none, 1)
      | some cd =>
        if 1 < cfg.max_retry_attempts ∧ cd.word_count < cfg.min_word_count
        then ((extractWithRetryAux browser url title query cfg 2).1,
              (extractWithRetryAux browser url title query cfg 2).2 + 1)
        else (some cd, 1) := by
  rw [extractWithRetryAux]
  show (match extractSourceContent browser url title query cfg.content_limit false with
    | none => (none, 1)
    | some content_data =>
      if h : 1 < cfg.max_retry_attempts ∧ content_data.word_count < cfg.min_word_count ∧
          (false = false) then
        let r := extractWithRetryAux browser url title query cfg 2
        (r.1, r.2 + 1)
      else (some content_data, 1)) = _
  cases extractSourceContent browser url title query cfg.content_limit false with
  | none => rfl
  | some cd =>
    dsimp only
    by_cases hc : 1 < cfg.max_retry_attempts ∧ cd.word_count < cfg.min_word_count
    · rw [dif_pos ⟨hc.1, hc.2, rfl⟩, if_pos hc]
    · rw [dif_neg (fun hh => hc ⟨hh.1, hh.2.1⟩), if_neg hc]

/-- The unfolding of `extract_with_retry` at `attempt = 2`: the retry guard's
`not deep_extraction` conjunct is false, so at most one further extraction call
happens and its result is returned as-is. -/
theorem extractWithRetryAux_attempt_two (browser : BrowserOracle) (url title query : String)
    (cfg : ResearchConfig) :
    extractWithRetryAux browser url title query cfg 2 =
      match extractSourceContent browser url title query cfg.deep_content_limit true with
      | none => ((none : Option SourceDict), 1)
      | some cd => (some cd, 1) := by
  rw [extractWithRetryAux]
  show (match extractSourceContent browser url title query cfg.deep_content_limit true with
    | none => (none, 1)
    | some content_data =>
      if h : 2 < cfg.max_retry_attempts ∧ content_data.word_count < cfg.min_word_count ∧
          (true = false) then
        let r := extractWithRetryAux browser url title query cfg 3
        (r.1, r.2 + 1)
      else (some content_data, 1)) = _
  cases extractSourceContent browser url title query cfg.deep_content_limit true with
  | none => rfl
  | some cd =>
    dsimp only
    rw [dif_neg (fun hh => absurd hh.2.2 (by simp))]

/-- Claim C6, amended (the code always makes at least one extraction call, so
the bound `max_retry_attempts` only holds from `max_retry_attempts ≥ 1` on):
for every browser behaviour and every configuration, `extract_with_retry`
performs at least one and at most `max 1 max_retry_attempts` extraction calls —
in particular at most `max_retry_attempts` whenever `max_retry_attempts ≥ 1`,
and never more than 2 — and the retry recursion terminates (the embedding is a
total function). -/
theorem C6_attempt_bound (browser : BrowserOracle) (url title query : String)
    (cfg : ResearchConfig) :
    1 ≤ (extractWithRetryAux browser url title query cfg 1).2 ∧
    (extractWithRetryAux browser url title query cfg 1).2 ≤ max 1 cfg.max_retry_attempts ∧
    (extractWithRetryAux browser url title query cfg 1).2 ≤ 2 := by
  have h2 : (extractWithRetryAux browser url title query cfg 2).2 = 1 := by
    rw [extractWithRetryAux_attempt_two]
    cases extractSourceContent browser url title query cfg.deep_content_limit true with
    | none => rfl
    | some cd => rfl
  rw [extractWithRetryAux_one]
  cases hscc : extractSourceContent browser url title query cfg.content_limit false with
  | none => exact ⟨le_refl 1, le_max_left 1 _, by norm_num⟩
  | some cd =>
    by_cases hcond : 1 < cfg.max_retry_attempts ∧ cd.word_count < cfg.min_word_count
    · simp only [if_pos hcond, h2]
      refine ⟨by norm_num, ?_, by norm_num⟩
      have : 2 ≤ cfg.max_retry_attempts := hcond.1
      omega
    · simp only [if_neg hcond]
      exact ⟨le_refl 1, le_max_left 1 _, by norm_num⟩

/-- Claim C6, counterexample: with the valid configuration value
`max_retry_attempts = 0`, `extract_with_retry` still performs one extraction
call, exceeding the claimed bound of `max_retry_attempts` calls. -/
theorem C6_cex :
    (extractWithRetryAux browserHappy "u" "t" "q" cfgZeroRetry 1).2 = 1 ∧
    ¬((extractWithRetryAux browserHappy "u" "t" "q" cfgZeroRetry 1).2 ≤
        cfgZeroRetry.max_retry_attempts) := by
  have h1 : (extractWithRetryAux browserHappy "u" "t" "q" cfgZeroRetry 1).2 = 1 := by
    rw [extractWithRetryAux_one]
    have hscc : extractSourceContent browserHappy "u" "t" "q"
        cfgZeroRetry.content_limit false =
        some { title := some "t", url := some "u", content := some "hello world",
               word_count := 2, extraction_depth := "normal" } := by decide
    rw [hscc]
    dsimp only
    rw [if_neg (by decide)]
  refine ⟨h1, ?_⟩
  rw [h1]
  decide

/-- Claim C10 (confirmed): every non-null result of `extract_with_retry` has
non-empty content, a `word_count` equal to the number of whitespace-separated
words of that content, and `extraction_depth = "deep"` exactly when it was
produced by a retry attempt (the second extraction call), `"normal"` when the
first call's result was returned. -/
theorem C10_extracted_wellformed (browser : BrowserOracle) (url title query : String)
    (cfg : ResearchConfig) (r : SourceDict) (n : Nat)
    (h : extractWithRetryAux browser url title query cfg 1 = (some r, n)) :
    (∃ c, r.content = some c ∧ c ≠ "" ∧ r.word_count = (pySplit c).length) ∧
    r.extraction_depth = (if 2 ≤ n then "deep" else "normal") ∧ n ≤ 2 := by
  rw [extractWithRetryAux_one] at h
  cases hscc : extractSourceContent browser url title query cfg.content_limit false with
  | none =>
    rw [hscc] at h
    exact absurd (congrArg Prod.fst h) (by simp)
  | some cd =>
    rw [hscc] at h
    dsimp only at h
    by_cases hcond : 1 < cfg.max_retry_attempts ∧ cd.word_count < cfg.min_word_count
    · rw [if_pos hcond] at h
      rw [extractWithRetryAux_attempt_two] at h
      cases hscc2 : extractSourceContent browser url title query cfg.deep_content_limit true with
      | none =>
        rw [hscc2] at h
        exact absurd (congrArg Prod.fst h) (by simp)
      | some cd2 =>
        rw [hscc2] at h
        have hr : cd2 = r := Option.some.inj (congrArg Prod.fst h)
        have hn : n = 2 := (congrArg Prod.snd h).symm.trans rfl
        obtain ⟨_, _, hc, hd⟩ :=
          extractSourceContent_wf browser url title query cfg.deep_content_limit true cd2 hscc2
        subst hr
        refine ⟨hc, ?_, by omega⟩
        rw [hn, hd]
        norm_num
    · rw [if_neg hcond] at h
      have hr : cd = r := Option.some.inj (congrArg Prod.fst h)
      have hn : n = 1 := (congrArg Prod.snd h).symm
      obtain ⟨_, _, hc, hd⟩ := extractSourceContent_wf browser url title query
        cfg.content_limit false cd hscc
      subst hr
      refine ⟨hc, ?_, by omega⟩
      rw [hn, hd]
      norm_num

theorem C10_witness :
    extractWithRetryAux browserHappy "u" "t" "q" {} 1 = (some happyDeepResult, 2) ∧
    ((∃ c, happyDeepResult.content = some c ∧ c ≠ "" ∧
        happyDeepResult.word_count = (pySplit c).length) ∧
      happyDeepResult.extraction_depth = (if 2 ≤ 2 then "deep" else "normal") ∧ 2 ≤ 2) := by
  have h : extractWithRetryAux browserHappy "u" "t" "q" {} 1 = (some happyDeepResult, 2) := by
    have hscc : extractSourceContent browserHappy "u" "t" "q"
        ({} : ResearchConfig).content_limit false =
        some { title := some "t", url := some "u", content := some "hello world",
               word_count := 2, extraction_depth := "normal" } := by decide
    have hscc2 : extractSourceContent browserHappy "u" "t" "q"
        ({} : ResearchConfig).deep_content_limit true = some happyDeepResult := by decide
    rw [extractWithRetryAux_one, hscc]
    dsimp only
    rw [if_pos (by exact ⟨by decide, by decide⟩)]
    rw [extractWithRetryAux_attempt_two, hscc2]
  exact ⟨h, C10_extracted_wellformed browserHappy "u" "t" "q" {} happyDeepResult 2 h⟩

/-- Claim C4 (code_bug): at the failing input — first attempt succeeds with
content (`"too thin"`, 2 words, below `min_word_count`), the escalated deep
attempt yields nothing — `extract_with_retry` returns `None`, dropping the
source, although its first attempt had returned content.  This contradicts the
claim (and the function's own docstring, "Content data or None if all attempts
fail"): the recursive call's result is returned directly, discarding the
already-obtained first result. -/
theorem C4_thin_then_failed_deep_returns_none :
    extractSourceContent browserThinThenError "u" "t" "q" ({} : ResearchConfig).content_limit
      false =
      some { title := some "t", url := some "u", content := some "too thin",
             word_count := 2, extraction_depth := "normal" } ∧
    extractWithRetry browserThinThenError "u" "t" "q" {} = none := by
  refine ⟨by decide, ?_⟩
  have hscc : extractSourceContent browserThinThenError "u" "t" "q"
      ({} : ResearchConfig).content_limit false =
      some { title := some "t", url := some "u", content := some "too thin",
             word_count := 2, extraction_depth := "normal" } := by decide
  have hscc2 : extractSourceContent browserThinThenError "u" "t" "q"
      ({} : ResearchConfig).deep_content_limit true = none := by decide
  unfold extractWithRetry
  rw [extractWithRetryAux_one, hscc]
  dsimp only
  rw [if_pos (by exact ⟨by decide, by decide⟩)]
  rw [extractWithRetryAux_attempt_two, hscc2]

/-! ## Claim C3: the deep-retry scenario

Concrete contents of `n` words are built as `n` copies of the word `"a"`
separated by single spaces; the lemmas below evaluate the tokenisation on them
without large kernel computations. -/

theorem string_append_assoc (a b c : String) : (a ++ b) ++ c = a ++ (b ++ c) := by
  apply string_eq_of_data
  simp [String.data_append, List.append_assoc]

theorem string_append_empty (s : String) : s ++ "" = s := by
  apply string_eq_of_data
  simp [String.data_append]

theorem foldl_join_replicate (n : Nat) (acc : String) :
    List.foldl (fun acc y => acc ++ " " ++ y) acc (List.replicate n "a") =
      acc ++ repSpaceA n := by
  induction n generalizing acc with
  | zero => simp [repSpaceA, string_append_empty]
  | succ n ih =>
    rw [List.replicate_succ, List.foldl_cons, ih]
    rw [string_append_assoc, string_append_assoc]
    congr 1

theorem mkContent_succ (n : Nat) : mkContent (n + 1) = "a" ++ repSpaceA n := by
  unfold mkContent pyJoin
  rw [List.replicate_succ]
  exact foldl_join_replicate n "a"

theorem mkContent_ne_empty (n : Nat) : mkContent (n + 1) ≠ "" := by
  rw [mkContent_succ]
  exact string_append_ne_empty_left _ _ (by decide)

theorem wordsAux_repSpaceA (n : Nat) :
    ∀ acc : List Char, acc ≠ [] →
      wordsAux (repSpaceA n).data acc = String.mk acc.reverse :: List.replicate n "a" := by
  induction n with
  | zero =>
    intro acc hacc
    simp [repSpaceA, wordsAux, hacc]
  | succ n ih =>
    intro acc hacc
    have hd : (repSpaceA (n + 1)).data = ' ' :: 'a' :: (repSpaceA n).data := by
      show (" a" ++ repSpaceA n).data = _
      rw [String.data_append]
      rfl
    rw [hd, wordsAux, if_pos (by decide), if_neg hacc, wordsAux, if_neg (by decide)]
    rw [ih ['a'] (by simp)]
    rfl

theorem pySplit_mkContent (n : Nat) :
    pySplit (mkContent (n + 1)) = List.replicate (n + 1) "a" := by
  rw [mkContent_succ]
  unfold pySplit
  have hd : ("a" ++ repSpaceA n).data = 'a' :: (repSpaceA n).data := by
    rw [String.data_append]
    rfl
  rw [hd, wordsAux, if_neg (by decide), wordsAux_repSpaceA n ['a'] (by simp)]
  rfl

theorem pyLower_append (s t : String) : pyLower (s ++ t) = pyLower s ++ pyLower t := by
  apply string_eq_of_data
  simp [pyLower, String.data_append]

theorem pyLower_repSpaceA (n : Nat) : pyLower (repSpaceA n) = repSpaceA n := by
  induction n with
  | zero => decide
  | succ n ih =>
    show pyLower (" a" ++ repSpaceA n) = " a" ++ repSpaceA n
    rw [pyLower_append, ih]
    congr 1

theorem pyLower_mkContent (n : Nat) : pyLower (mkContent (n + 1)) = mkContent (n + 1) := by
  rw [mkContent_succ, pyLower_append, pyLower_repSpaceA]
  congr 1

theorem wordsLower_mkContent (n : Nat) :
    wordsLower (mkContent (n + 1)) = List.replicate (n + 1) "a" := by
  unfold wordsLower
  rw [pyLower_mkContent, pySplit_mkContent]

theorem dedup_replicate_a (n : Nat) : (List.replicate (n + 1) "a").dedup = ["a"] := by
  induction n with
  | zero => decide
  | succ n ih =>
    rw [List.replicate_succ, List.dedup_cons_of_mem (by simp [List.mem_replicate]), ih]

theorem filter_replicate_false (p : String → Bool) (hp : p "a" = false) (n : Nat) :
    (List.replicate n "a").filter p = [] := by
  induction n with
  | zero => rfl
  | succ n ih => rw [List.replicate_succ, List.filter_cons_of_neg (by simp [hp]), ih]

/-- The relevance score of an `n + 1 ≥ 100`-word all-`"a"` content against
query `"a"` and summary `"a"` saturates at `10`. -/
theorem relevance_mkContent (n : Nat) (h100 : 100 ≤ n + 1) :
    calculateRelevanceScore (mkContent (n + 1)) "a" "a" = 10 := by
  unfold calculateRelevanceScore
  dsimp only
  have hq : (wordsLower "a").dedup = ["a"] := by decide
  rw [hq, wordsLower_mkContent, dedup_replicate_a, pySplit_mkContent, List.length_replicate]
  have hone : (((["a"] : List String).filter (fun w => w ∈ (["a"] : List String))).length : ℚ) /
      (([("a" : String)] : List String).length : ℚ) = 1 := by
    norm_num
  rw [if_pos (by simp), hone]
  have hmin : min (((n + 1 : Nat) : ℚ) / 100) 1 = 1 := by
    rw [min_eq_right]
    rw [le_div_iff₀ (by norm_num)]
    have : (100 : ℚ) ≤ ((n + 1 : Nat) : ℚ) := by exact_mod_cast h100
    linarith
  rw [hmin]
  norm_num

theorem themes_mkContent (n : Nat) : extractThemes (mkContent (n + 1)) "a" = [] := by
  unfold extractThemes
  dsimp only
  rw [wordsLower_mkContent, filter_replicate_false _ (by decide)]
  rfl

theorem analyzeSource_extraction_method (llm : String → Except String String)
    (lang : PyLang) (source : SourceDict) (query method : String) :
    (analyzeSource llm lang source query method).extraction_method = "normal" := by
  unfold analyzeSource
  dsimp only
  split
  · rfl
  · split
    · rfl
    · split
      · rfl
      · rfl

theorem analyzeSource_word_count (llm : String → Except String String)
    (lang : PyLang) (source : SourceDict) (query method c : String)
    (hc : source.content = some c) (hne : c ≠ "") :
    (analyzeSource llm lang source query method).word_count = (pySplit c).length := by
  unfold analyzeSource
  rw [hc]
  simp only [Option.getD_some]
  rw [if_neg hne]
  split
  · rfl
  · split
    · rfl
    · rfl

/-- Claim C3, amended (the extractor's depth survives on the `ExtractedSource`,
not on the `AnalysisResult`): in the scenario — first extraction below
`min_word_count`, deep retry at or above it — `extract_with_retry` returns the
deep attempt's result with `extraction_depth = "deep"`, but the analyzer never
reads that field, and the `extraction_method` recorded on the `AnalysisResult`
it produces for that source is `"normal"`. -/
theorem C3_depth_on_extracted_source (browser : BrowserOracle)
    (llm : String → Except String String) (lang : PyLang) (cfg : ResearchConfig)
    (url title query : String) (r1 r2 : SourceDict)
    (h1 : extractSourceContent browser url title query cfg.content_limit false = some r1)
    (hwc1 : r1.word_count < cfg.min_word_count)
    (hretry : 1 < cfg.max_retry_attempts)
    (h2 : extractSourceContent browser url title query cfg.deep_content_limit true = some r2)
    (hwc2 : cfg.min_word_count ≤ r2.word_count) :
    extractWithRetry browser url title query cfg = some r2 ∧
    r2.extraction_depth = "deep" ∧
    (analyzeSourceWithIntelligence llm lang cfg r2 query).extraction_method = "normal" := by
  obtain ⟨_, _, ⟨c, hc, hcne, hwc⟩, hd⟩ :=
    extractSourceContent_wf browser url title query cfg.deep_content_limit true r2 h2
  refine ⟨?_, by rw [hd]; rfl, ?_⟩
  · unfold extractWithRetry
    rw [extractWithRetryAux_one, h1]
    dsimp only
    rw [if_pos ⟨hretry, hwc1⟩, extractWithRetryAux_attempt_two, h2]
  · have hawc : (analyzeSource llm lang r2 query "normal").word_count = r2.word_count := by
      rw [analyzeSource_word_count llm lang r2 query "normal" c hc hcne, hwc]
    unfold analyzeSourceWithIntelligence
    dsimp only
    split
    · rw [if_neg (by rw [hawc]; omega)]
      split
      · exact analyzeSource_extraction_method _ _ _ _ _
      · exact analyzeSource_extraction_method _ _ _ _ _
    · exact analyzeSource_extraction_method _ _ _ _ _

theorem length_pySplit_mkContent_120 : (pySplit (mkContent 120)).length = 120 := by
  have h := pySplit_mkContent 119
  rw [show (119 : Nat) + 1 = 120 from rfl] at h
  rw [h, List.length_replicate]

theorem length_pySplit_c900 : (pySplit c900).length = 900 := by
  have h := pySplit_mkContent 899
  rw [show (899 : Nat) + 1 = 900 from rfl] at h
  show (pySplit (mkContent 900)).length = 900
  rw [h, List.length_replicate]

theorem c900_ne_empty : c900 ≠ "" := by
  have h := mkContent_ne_empty 899
  rw [show (899 : Nat) + 1 = 900 from rfl] at h
  exact h

theorem mkContent120_ne_empty : mkContent 120 ≠ "" := by
  have h := mkContent_ne_empty 119
  rw [show (119 : Nat) + 1 = 120 from rfl] at h
  exact h

/-- Evaluation of `extract_source_content` under a navigation success and an
extraction success with non-empty content. -/
theorem extractSourceContent_ok (browser : BrowserOracle) (url title query : String)
    (max_length : Nat) (deep_extraction : Bool) (nav : NavResult) (pc : PageContentResult)
    (hnav : browser.navigate_to_url url = Except.ok nav) (hst : nav.status = "success")
    (hpc : browser.extract_page_content query max_length = Except.ok pc)
    (hps : pc.status = "success") (hne : pc.content ≠ "") :
    extractSourceContent browser url title query max_length deep_extraction =
      some { title := some title, url := some url, content := some pc.content,
             word_count := (pySplit pc.content).length,
             extraction_depth := if deep_extraction then "deep" else "normal" } := by
  unfold extractSourceContent
  rw [hnav]
  dsimp only
  rw [if_neg (fun hcc => hcc hst)]
  rw [hpc]
  dsimp only
  rw [if_pos ⟨hps, hne⟩]

set_option maxRecDepth 10000 in
theorem extractC3_first :
    extractSourceContent browserC3 "u" "t" "a" ({} : ResearchConfig).content_limit false =
      some srcC3first := by
  have h := extractSourceContent_ok browserC3 "u" "t" "a" 4096 false
    { status := "success" } { status := "success", content := mkContent 120 }
    rfl rfl rfl rfl mkContent120_ne_empty
  rw [length_pySplit_mkContent_120] at h
  exact h

set_option maxRecDepth 10000 in
theorem extractC3_deep :
    extractSourceContent browserC3 "u" "t" "a" ({} : ResearchConfig).deep_content_limit true =
      some srcC3deep := by
  have h := extractSourceContent_ok browserC3 "u" "t" "a" 8192 true
    { status := "success" } { status := "success", content := c900 }
    rfl rfl rfl rfl c900_ne_empty
  rw [length_pySplit_c900] at h
  exact h

set_option maxRecDepth 10000 in
theorem analyzeC3 :
    analyzeSource llmOkA PyLang.english srcC3deep "a" "normal" =
      { summary := "a", relevance_score := 10, key_finding := "a", themes := [],
        word_count := 900, extraction_method := "normal", analysis_method := "normal" } := by
  have hrel : calculateRelevanceScore c900 "a" "a" = 10 := by
    have h := relevance_mkContent 899 (by norm_num)
    rw [show (899 : Nat) + 1 = 900 from rfl] at h
    exact h
  have hth : extractThemes c900 "a" = [] := by
    have h := themes_mkContent 899
    rw [show (899 : Nat) + 1 = 900 from rfl] at h
    exact h
  unfold analyzeSource srcC3deep
  simp only [Option.getD_some]
  rw [if_neg c900_ne_empty]
  dsimp only [llmOkA]
  rw [show pyStrip "a" = "a" from rfl, hrel, hth, length_pySplit_c900]

/-- When the first pass needs no enhancement, `_analyze_source_with_intelligence`
returns the first pass's result unchanged. -/
theorem intel_no_enhancement (llm : String → Except String String) (lang : PyLang)
    (cfg : ResearchConfig) (source : SourceDict) (query : String)
    (hscore : ¬(analyzeSource llm lang source query "normal").relevance_score <
      cfg.relevance_threshold)
    (hwc : ¬(analyzeSource llm lang source query "normal").word_count < cfg.min_word_count) :
    analyzeSourceWithIntelligence llm lang cfg source query =
      analyzeSource llm lang source query "normal" := by
  unfold analyzeSourceWithIntelligence
  dsimp only
  rw [if_neg (fun hc => hc.1.elim hscore hwc)]

set_option maxRecDepth 10000 in
theorem intelC3 :
    (analyzeSourceWithIntelligence llmOkA PyLang.english {} srcC3deep "a").extraction_method =
      "normal" := by
  rw [intel_no_enhancement llmOkA PyLang.english {} srcC3deep "a"
    (by rw [analyzeC3]; norm_num) (by rw [analyzeC3]; norm_num), analyzeC3]

set_option maxRecDepth 10000 in
/-- Claim C3, counterexample: in the exact scenario of the claim — first
extraction yields 120 words (below `min_word_count = 300`), the deep retry
yields 900 words — the `AnalysisResult` produced for the source records
`extraction_method = "normal"`, not `deep`: the extractor's depth is never
copied onto the analysis. -/
theorem C3_cex :
    extractWithRetry browserC3 "u" "t" "a" {} = some srcC3deep ∧
    (extractSourceContent browserC3 "u" "t" "a" ({} : ResearchConfig).content_limit false).map
        (fun r => r.word_count) = some 120 ∧
    srcC3deep.word_count = 900 ∧ ({} : ResearchConfig).min_word_count = 300 ∧
    (analyzeSourceWithIntelligence llmOkA PyLang.english {} srcC3deep "a").extraction_method =
      "normal" ∧ ("normal" : String) ≠ "deep" := by
  refine ⟨?_, ?_, rfl, rfl, intelC3, by decide⟩
  · unfold extractWithRetry
    rw [extractWithRetryAux_one, extractC3_first]
    dsimp only
    rw [if_pos ⟨by decide, by decide⟩]
    rw [extractWithRetryAux_attempt_two, extractC3_deep]
  · rw [extractC3_first]
    rfl

set_option maxRecDepth 10000 in
theorem C3_witness :
    (extractSourceContent browserC3 "u" "t" "a" ({} : ResearchConfig).content_limit false =
        some srcC3first ∧
      srcC3first.word_count < ({} : ResearchConfig).min_word_count ∧
      1 < ({} : ResearchConfig).max_retry_attempts ∧
      extractSourceContent browserC3 "u" "t" "a" ({} : ResearchConfig).deep_content_limit true =
        some srcC3deep ∧
      ({} : ResearchConfig).min_word_count ≤ srcC3deep.word_count) ∧
    (extractWithRetry browserC3 "u" "t" "a" {} = some srcC3deep ∧
      srcC3deep.extraction_depth = "deep" ∧
      (analyzeSourceWithIntelligence llmOkA PyLang.english {} srcC3deep "a").extraction_method =
        "normal") :=
  ⟨⟨extractC3_first, by decide, by decide, extractC3_deep, by decide⟩,
    C3_depth_on_extracted_source browserC3 llmOkA PyLang.english {} "u" "t" "a"
      srcC3first srcC3deep extractC3_first (by decide) (by decide) extractC3_deep (by decide)⟩

/-! ## Claim C1: where the synthesis retry/fallback logic lives -/

/-- Every finding of the limited list appears in the fallback's findings block:
its title truncated to 50 characters and its text truncated to 150. -/
theorem findingsLines_substr (f : KeyFinding) :
    ∀ (l : List KeyFinding) (i : Nat), f ∈ l →
      Substr (pyTake f.source_title 50) (findingsLines i l) ∧
      Substr (pyTake f.finding 150) (findingsLines i l) := by
  intro l
  induction l with
  | nil =>
    intro i hf
    cases hf
  | cons a l ih =>
    intro i hf
    rcases List.mem_cons.mp hf with rfl | hmem
    · constructor
      · exact substr_app_right _ _ _ (substr_here _ _ _)
      · exact substr_app_right _ _ _ (substr_app_left _ _ _ (substr_app_left _ _ _
          (substr_app_left _ _ _ (substr_here _ _ _))))
    · obtain ⟨h1, h2⟩ := ih (i + 1) hmem
      exact ⟨substr_app_left _ _ _ h1, substr_app_left _ _ _ h2⟩

/-- When every generation call raises, `_phase_4_final_summary` runs all three
loop iterations, each sending the full prompt (the shorter prompt assigned in
the `except` branch is overwritten before use), and returns the fallback built
from the last error. -/
theorem phase4_all_fail (llm : Nat → String → Except String String) (query : String)
    (key_findings : List KeyFinding) (analyzedCount : Nat)
    (hfail : ∀ i p, ∃ e, llm i p = Except.error e) :
    ∃ e2, llm 2 (phase4FullPrompt query (findingsTextOf (key_findings.take 5))) =
        Except.error e2 ∧
      phase4FinalSummary llm query key_findings analyzedCount =
        (phase4Fallback query e2 (key_findings.take 5) analyzedCount key_findings.length,
         [phase4FullPrompt query (findingsTextOf (key_findings.take 5)),
          phase4FullPrompt query (findingsTextOf (key_findings.take 5)),
          phase4FullPrompt query (findingsTextOf (key_findings.take 5))]) := by
  obtain ⟨e0, h0⟩ := hfail 0 (phase4FullPrompt query (findingsTextOf (key_findings.take 5)))
  obtain ⟨e1, h1⟩ := hfail 1 (phase4FullPrompt query (findingsTextOf (key_findings.take 5)))
  obtain ⟨e2, h2⟩ := hfail 2 (phase4FullPrompt query (findingsTextOf (key_findings.take 5)))
  refine ⟨e2, h2, ?_⟩
  unfold phase4FinalSummary
  dsimp only
  rw [show List.range 3 = [0, 1, 2] from rfl]
  rw [phase4Go]
  rw [h0]
  dsimp only
  rw [if_pos (by norm_num)]
  rw [phase4Go]
  rw [h1]
  dsimp only
  rw [if_pos (by norm_num)]
  rw [phase4Go]
  rw [h2]
  dsimp only
  rw [if_neg (by norm_num)]

/-- Claim C1, amended (the retry/fallback behaviour belongs to the CLI
assistant's `_phase_4_final_summary`, not to the analyzer's
`generate_final_summary`, and the retries reuse the full prompt): when the
text-generation collaborator fails on every call,
`EnhancedResearchAssistant._phase_4_final_summary` makes exactly 3 attempts,
each sending the full prompt (the shorter ≤500-character/≤300-word prompt is
built on failure but overwritten before the next call), and returns a
programmatically built fallback report containing the "technical difficulties"
header, the top findings with their source titles, and the aggregate
statistics (source count, finding count, query); whereas
`ContentAnalyzer.generate_final_summary` makes a single attempt and returns
the caught-error string. -/
theorem C1_synthesis_retry_fallback (llm : Nat → String → Except String String)
    (llm1 : String → Except String String) (lang : PyLang) (query : String)
    (key_findings : List KeyFinding) (analyzedCount : Nat) (analyses : List AnalysisResult)
    (hfail : ∀ i p, ∃ e, llm i p = Except.error e)
    (hfail1 : ∀ p, ∃ e, llm1 p = Except.error e) :
    (phase4FinalSummary llm query key_findings analyzedCount).2 =
      [phase4FullPrompt query (findingsTextOf (key_findings.take 5)),
       phase4FullPrompt query (findingsTextOf (key_findings.take 5)),
       phase4FullPrompt query (findingsTextOf (key_findings.take 5))] ∧
    Substr "technical difficulties" (phase4FinalSummary llm query key_findings analyzedCount).1 ∧
    (∀ f ∈ key_findings.take 5,
      Substr (pyTake f.source_title 50)
        (phase4FinalSummary llm query key_findings analyzedCount).1 ∧
      Substr (pyTake f.finding 150)
        (phase4FinalSummary llm query key_findings analyzedCount).1) ∧
    Substr ("- Sources Analyzed: " ++ Nat.repr analyzedCount)
      (phase4FinalSummary llm query key_findings analyzedCount).1 ∧
    Substr ("- Key Findings: " ++ Nat.repr key_findings.length)
      (phase4FinalSummary llm query key_findings analyzedCount).1 ∧
    Substr ("- Query: " ++ query)
      (phase4FinalSummary llm query key_findings analyzedCount).1 ∧
    ∃ e, generateFinalSummary llm1 lang analyses query = "Error generating summary: " ++ e := by
  obtain ⟨e2, _h2, heq⟩ := phase4_all_fail llm query key_findings analyzedCount hfail
  rw [heq]
  dsimp only
  unfold phase4Fallback
  refine ⟨rfl, ?_, ?_, ?_, ?_, ?_, generateFinalSummary_error llm1 lang analyses query hfail1⟩
  · apply substr_app_left
    apply substr_app_left
    apply substr_app_right
    decide
  · intro f hf
    obtain ⟨h1, h2⟩ := findingsLines_substr f (key_findings.take 5) 1 hf
    constructor
    · apply substr_app_left
      apply substr_app_left
      apply substr_app_left
      apply substr_app_left
      apply substr_app_left
      apply substr_app_right
      exact h1
    · apply substr_app_left
      apply substr_app_left
      apply substr_app_left
      apply substr_app_left
      apply substr_app_left
      apply substr_app_right
      exact h2
  · apply substr_app_left
    apply substr_app_left
    apply substr_app_left
    apply substr_app_left
    apply substr_app_left
    apply substr_app_left
    exact substr_seam _ "\n### Research Statistics\n" _ _ _ (by decide)
  · apply substr_app_left
    apply substr_app_left
    apply substr_app_left
    apply substr_app_left
    apply substr_app_left
    apply substr_app_left
    apply substr_app_left
    apply substr_app_left
    exact substr_seam _ "\n" _ _ _ (by decide)
  · apply substr_app_left
    apply substr_app_left
    apply substr_app_left
    apply substr_app_left
    apply substr_app_left
    apply substr_app_left
    apply substr_app_left
    apply substr_app_left
    apply substr_app_left
    apply substr_app_left
    exact substr_seam _ "\n" _ _ _ (by decide)

/-- Claim C1, counterexample: with a text-generation collaborator that raises
on every call, `ContentAnalyzer.generate_final_summary` returns the plain
caught-error string — no retry happens and no "technical difficulties"
fallback report is built. -/
theorem C1_cex :
    generateFinalSummary llmAlwaysFail PyLang.english [sampleAnalysis] "q" =
      "Error generating summary: timeout" ∧
    ¬ Substr "technical difficulties"
      (generateFinalSummary llmAlwaysFail PyLang.english [sampleAnalysis] "q") := by
  have h : generateFinalSummary llmAlwaysFail PyLang.english [sampleAnalysis] "q" =
      "Error generating summary: timeout" := rfl
  refine ⟨h, ?_⟩
  rw [h]
  decide

theorem C1_witness :
    ((∀ i p, ∃ e, llmIdxFail i p = Except.error e) ∧
      (∀ p, ∃ e, llmAlwaysFail p = Except.error e)) ∧
    ((phase4FinalSummary llmIdxFail "q" [kfSample] 4).2 =
      [phase4FullPrompt "q" (findingsTextOf ([kfSample].take 5)),
       phase4FullPrompt "q" (findingsTextOf ([kfSample].take 5)),
       phase4FullPrompt "q" (findingsTextOf ([kfSample].take 5))] ∧
    Substr "technical difficulties" (phase4FinalSummary llmIdxFail "q" [kfSample] 4).1 ∧
    (∀ f ∈ [kfSample].take 5,
      Substr (pyTake f.source_title 50) (phase4FinalSummary llmIdxFail "q" [kfSample] 4).1 ∧
      Substr (pyTake f.finding 150) (phase4FinalSummary llmIdxFail "q" [kfSample] 4).1) ∧
    Substr ("- Sources Analyzed: " ++ Nat.repr 4)
      (phase4FinalSummary llmIdxFail "q" [kfSample] 4).1 ∧
    Substr ("- Key Findings: " ++ Nat.repr ([kfSample] : List KeyFinding).length)
      (phase4FinalSummary llmIdxFail "q" [kfSample] 4).1 ∧
    Substr ("- Query: " ++ "q") (phase4FinalSummary llmIdxFail "q" [kfSample] 4).1 ∧
    ∃ e, generateFinalSummary llmAlwaysFail PyLang.english [sampleAnalysis] "q" =
      "Error generating summary: " ++ e) :=
  ⟨⟨fun _ _ => ⟨"boom", rfl⟩, fun _ => ⟨"timeout", rfl⟩⟩,
    C1_synthesis_retry_fallback llmIdxFail llmAlwaysFail PyLang.english "q" [kfSample] 4
      [sampleAnalysis] (fun _ _ => ⟨"boom", rfl⟩) (fun _ => ⟨"timeout", rfl⟩)⟩

/-! ## Claim C9: the report embeds the generation time -/

/-- Claim C9, amended (the report is a pure function of the session state AND
the clock reading taken at invocation time, which it embeds): for every fixed
session (analyses, final summary, sources), configuration and output language,
two invocations of the markdown report generator produce identical documents
if and only if their clock readings render identically — the embedded
timestamp is the only source of difference, and with it fixed the generator is
deterministic; the embedding performs no retries and is a total function with
no effects besides the clock parameter. -/
theorem C9_report_timestamp_dependence (cfg : Config) (lang : PyLang) (query : String)
    (analyses : List AnalysisResult) (final_summary : String) (sources : List SourceDict)
    (include_images : Bool) (t1 t2 : String) :
    generateMarkdownReport cfg lang query analyses final_summary sources include_images t1 =
      generateMarkdownReport cfg lang query analyses final_summary sources include_images t2 ↔
    t1 = t2 := by
  constructor
  · intro h
    unfold generateMarkdownReport at h
    have hd := congrArg String.data h
    simp only [String.data_append] at hd
    have h1 := List.append_cancel_left hd
    have h2 := List.append_cancel_right h1
    exact string_eq_of_data _ _ h2
  · intro h
    rw [h]

/-- Claim C9, counterexample: for one fixed session state (empty analyses and
sources, summary `"s"`, query `"q"`), two invocations of the report generator
at different clock readings produce different documents — the generator is not
a pure function of the session state alone, because it embeds
`datetime.now()`. -/
theorem C9_cex :
    generateMarkdownReport {} PyLang.english "q" [] "s" [] true "2024-01-01 00:00:00" ≠
      generateMarkdownReport {} PyLang.english "q" [] "s" [] true "2024-01-02 00:00:00" := by
  intro h
  unfold generateMarkdownReport at h
  have hd := congrArg String.data h
  simp only [String.data_append] at hd
  have h1 := List.append_cancel_left hd
  have h2 := List.append_cancel_right h1
  have h3 : ("2024-01-01 00:00:00" : String) = "2024-01-02 00:00:00" :=
    string_eq_of_data _ _ h2
  exact absurd h3 (by decide)

end Swarm
